import Mathlib

/-!
Shallow embedding of the `ethercat_interface` PDO channel-manager code:
the data-type table and codec registry (`ec_pdo_channel_manager.cpp`),
the single-interface channel manager
(`ec_pdo_single_interface_channel_manager.cpp` / `.hpp`) and the
group-interface channel manager
(`ec_pdo_group_interface_channel_manager.cpp` / `.hpp`), together with the
process-wide interface-name tables.

Modelling conventions:
* C++ `double` is modelled by `EDouble`: either NaN (the code's "unset"
  sentinel) or an exact rational value.
* The cyclic exchange buffer (domain) is a byte-addressed memory
  `Nat → Nat`; all stored bytes are kept below 256 by the write functions.
* `std::vector` becomes `List`; `push_back` is `++ [x]`.  Out-of-range
  `operator[]` / `.at` accesses are modelled with `List.getD`; no theorem
  below exercises an out-of-range access.
* `size_t` sentinel `std::numeric_limits<size_t>::max()` used for
  interface indices is modelled as `Option Nat` (`none` = unset) where the
  code only ever tests it against the sentinel, and as the literal
  `usizeMax` where the code returns it as data.
* Function pointers stored in the managers are modelled as
  `Option ReadFn` / `Option WriteFn`; calling a null pointer is undefined
  behaviour in C++ and is modelled by a no-op/NaN fallback that no theorem
  exercises.
-/

/-- A C++ `double` as the code uses it: NaN (tri-state "unset" marker) or an
exact rational value. -/
inductive EDouble where
  | nan : EDouble
  | val : ℚ → EDouble
deriving DecidableEq, Repr

/-- `std::isnan`. -/
def EDouble.isNaN : EDouble → Bool
  | .nan => true
  | .val _ => false

/-- Double multiplication; NaN propagates. -/
def EDouble.mul : EDouble → EDouble → EDouble
  | .nan, _ => .nan
  | _, .nan => .nan
  | .val a, .val b => .val (a * b)

/-- Double addition; NaN propagates. -/
def EDouble.add : EDouble → EDouble → EDouble
  | .nan, _ => .nan
  | _, .nan => .nan
  | .val a, .val b => .val (a + b)

instance : Mul EDouble := ⟨EDouble.mul⟩

instance : Add EDouble := ⟨EDouble.add⟩

/-- C++ `if (value)` truthiness of a double; NaN is truthy. -/
def EDouble.truthy : EDouble → Bool
  | .nan => true
  | .val q => q != 0

/-- `static_cast` of a double to an integer type truncates toward zero
(`Int.div` is C-style T-division).  Casting NaN is undefined behaviour in
C++; it is modelled as 0 and never exercised by a theorem. -/
def EDouble.trunc : EDouble → Int
  | .nan => 0
  | .val q => Int.tdiv q.num (q.den : Int)

/-- `static_cast<uintN_t>` / two's-complement byte image of
`static_cast<intN_t>`: the truncated value reduced mod 2^bits. -/
def ecCastMod (modulus : Nat) (v : EDouble) : Nat :=
  (Int.emod v.trunc (modulus : Int)).toNat

/-- The cyclic exchange buffer: one byte (`Nat` < 256) per address. -/
def Domain : Type := Nat → Nat

/-- Write one byte at an address. -/
def setByte (dom : Domain) (addr b : Nat) : Domain :=
  fun a => if a = addr then b else dom a

/-- `EC_READ_U8`. -/
def ecReadU8 (dom : Domain) (addr : Nat) : Nat := dom addr

/-- `EC_WRITE_U8`. -/
def ecWriteU8 (dom : Domain) (addr b : Nat) : Domain := setByte dom addr b

/-- Little-endian read of `count` bytes. -/
def leRead (count : Nat) (dom : Domain) (addr : Nat) : Nat :=
  (List.range count).foldl (fun acc i => acc + dom (addr + i) * 256 ^ i) 0

/-- Little-endian write of `count` bytes of `n`. -/
def leWrite (count : Nat) (dom : Domain) (addr n : Nat) : Domain :=
  fun a => if addr ≤ a ∧ a < addr + count then n / 256 ^ (a - addr) % 256 else dom a

/-- Reinterpret an unsigned `w`-bit value as a signed (two's complement) one. -/
def signedOf (w n : Nat) : Int :=
  if n < 2 ^ (w - 1) then (n : Int) else (n : Int) - 2 ^ w

/-- Type of the per-type decode functions (`SingleReadFunctionType`):
domain, address, mask to decoded double. -/
def ReadFn : Type := Domain → Nat → Nat → EDouble

/-- Type of the per-type encode functions (`SingleWriteFunctionType`):
domain, address, value, mask to updated domain. -/
def WriteFn : Type := Domain → Nat → EDouble → Nat → Domain

def uint8_read : ReadFn := fun dom addr _ => .val ((ecReadU8 dom addr : Nat) : ℚ)

def int8_read : ReadFn := fun dom addr _ => .val ((signedOf 8 (ecReadU8 dom addr) : Int) : ℚ)

def uint16_read : ReadFn := fun dom addr _ => .val ((leRead 2 dom addr : Nat) : ℚ)

def int16_read : ReadFn := fun dom addr _ => .val ((signedOf 16 (leRead 2 dom addr) : Int) : ℚ)

def uint32_read : ReadFn := fun dom addr _ => .val ((leRead 4 dom addr : Nat) : ℚ)

def int32_read : ReadFn := fun dom addr _ => .val ((signedOf 32 (leRead 4 dom addr) : Int) : ℚ)

def uint64_read : ReadFn := fun dom addr _ => .val ((leRead 8 dom addr : Nat) : ℚ)

def int64_read : ReadFn := fun dom addr _ => .val ((signedOf 64 (leRead 8 dom addr) : Int) : ℚ)

/-- `bool_read`: 1.0 when any masked bit of the byte is set, else 0.0. -/
def bool_read : ReadFn := fun dom addr mask =>
  if (ecReadU8 dom addr &&& mask) != 0 then .val 1 else .val 0

/-- `octet_read`: the masked byte as an integer-valued double. -/
def octet_read : ReadFn := fun dom addr mask =>
  .val ((ecReadU8 dom addr &&& mask : Nat) : ℚ)

def uint8_write : WriteFn := fun dom addr v _ => ecWriteU8 dom addr (ecCastMod 256 v)

def int8_write : WriteFn := fun dom addr v _ => ecWriteU8 dom addr (ecCastMod 256 v)

def uint16_write : WriteFn := fun dom addr v _ => leWrite 2 dom addr (ecCastMod (2 ^ 16) v)

def int16_write : WriteFn := fun dom addr v _ => leWrite 2 dom addr (ecCastMod (2 ^ 16) v)

def uint32_write : WriteFn := fun dom addr v _ => leWrite 4 dom addr (ecCastMod (2 ^ 32) v)

def int32_write : WriteFn := fun dom addr v _ => leWrite 4 dom addr (ecCastMod (2 ^ 32) v)

def uint64_write : WriteFn := fun dom addr v _ => leWrite 8 dom addr (ecCastMod (2 ^ 64) v)

def int64_write : WriteFn := fun dom addr v _ => leWrite 8 dom addr (ecCastMod (2 ^ 64) v)

/-- `bool_compose`: clear the mask bit(s), then set them iff the value is
truthy.  (`buffer & ~mask` on bytes equals `buffer &&& (255 ^^^ mask)`.) -/
def bool_compose : WriteFn := fun dom addr v mask =>
  let buffer := ecReadU8 dom addr &&& (255 ^^^ mask)
  ecWriteU8 dom addr (if v.truthy then buffer ||| mask else buffer)

/-- `octet_compose`: clear the mask bits in the existing byte, OR in the new
value's masked bits. -/
def octet_compose : WriteFn := fun dom addr v mask =>
  let buffer := ecReadU8 dom addr &&& (255 ^^^ mask)
  ecWriteU8 dom addr (buffer ||| (ecCastMod 256 v &&& mask))

/-- `octet_override`: write exactly `value & mask` as the whole byte. -/
def octet_override : WriteFn := fun dom addr v mask =>
  ecWriteU8 dom addr (ecCastMod 256 v &&& mask)

/-- `ec_pdo_channel_data_types`: the fixed table of type names. -/
def ec_pdo_channel_data_types : List String :=
  ["unknown", "bit", "bool", "int8", "uint8", "int16", "uint16",
   "int32", "uint32", "int64", "uint64"]

/-- `ec_pdo_channel_data_bits`: bit widths of the table entries. -/
def ec_pdo_channel_data_bits : List Nat :=
  [0, 0, 1, 8, 8, 16, 16, 32, 32, 64, 64]

/-- `ec_pdo_single_read_functions` (index 0 is NULL). -/
def ec_pdo_single_read_functions : List (Option ReadFn) :=
  [none, some octet_read, some bool_read, some int8_read, some uint8_read,
   some int16_read, some uint16_read, some int32_read, some uint32_read,
   some int64_read, some uint64_read]

/-- `ec_pdo_single_write_functions` (index 0 is NULL; index 11 is
`octet_override`). -/
def ec_pdo_single_write_functions : List (Option WriteFn) :=
  [none, some octet_compose, some bool_compose, some int8_write, some uint8_write,
   some int16_write, some uint16_write, some int32_write, some uint32_write,
   some int64_write, some uint64_write, some octet_override]

/-- Does `s` start with `pat`? -/
def charsStartWith : List Char → List Char → Bool
  | [], _ => true
  | _ :: _, [] => false
  | p :: ps, c :: cs => p == c && charsStartWith ps cs

/-- Does `s` contain `pat` as a substring (`std::string::find != npos`)? -/
def charsContain (pat : List Char) : List Char → Bool
  | [] => charsStartWith pat []
  | c :: cs => charsStartWith pat (c :: cs) || charsContain pat cs

/-- The suffix of `s` after the first occurrence of `pat`
(`s.substr(s.find(pat) + pat.size())`); `none` when `pat` does not occur. -/
def charsAfterFirst (pat : List Char) : List Char → Option (List Char)
  | [] => if charsStartWith pat [] then some [] else none
  | c :: cs =>
    if charsStartWith pat (c :: cs) then some (List.drop pat.length (c :: cs))
    else charsAfterFirst pat cs

def stoiGo (acc : Nat) : List Char → Nat
  | [] => acc
  | c :: cs => if c.isDigit then stoiGo (acc * 10 + (c.toNat - 48)) cs else acc

/-- Digit-prefix model of `std::stoi`: `none` (the caught
`std::invalid_argument`) when no leading digit is present, else the value of
the maximal digit prefix.  Leading whitespace/sign, which cannot occur in a
type-name suffix, is not modelled. -/
def stoiDigits : List Char → Option Nat
  | [] => none
  | c :: cs => if c.isDigit then some (stoiGo (c.toNat - 48) cs) else none

/-- `typeIdx`: any name containing "bit" resolves to the variable-width
family index 1; otherwise exact table lookup; unmatched names resolve to 0. -/
def typeIdx (ty : String) : Nat :=
  if charsContain "bit".data ty.data then 1
  else
    let i := List.indexOf ty ec_pdo_channel_data_types
    if i < ec_pdo_channel_data_types.length then i else 0

/-- `type2bits`: for the "bitN" family, parse the suffix after "bit"
(`static_cast<uint8_t>(std::stoi(...))`, 0 on a non-numeric suffix);
otherwise the tabulated width. -/
def type2bits (ty : String) : Nat :=
  if typeIdx ty = 1 then
    match charsAfterFirst "bit".data ty.data with
    | some rest =>
      match stoiDigits rest with
      | some n => n % 256
      | none => 0
    | none => 0
  else ec_pdo_channel_data_bits.getD (typeIdx ty) 0

/-- `id_and_bits_to_type`: inverse mapping; `none` models the
`std::out_of_range` throw for an index beyond the table. -/
def id_and_bits_to_type (type_idx bits : Nat) : Option String :=
  if type_idx < ec_pdo_channel_data_types.length then
    if type_idx = 1 then some ("bit" ++ toString bits)
    else some (ec_pdo_channel_data_types.getD type_idx "")
  else none

/-- Number of set bits in a byte-sized mask. -/
def popcount8 (n : Nat) : Nat :=
  ((List.range 8).filter (fun i => n.testBit i)).length

/-- Modelled from the spec: `check_type` is declared in
`ec_pdo_channel_manager.hpp` and called by the group loader, but its
definition is not among the provided sources.  Per the spec (§4.1, §7,
§8): the number of set bits in the mask must not exceed the type's
declared bit width. -/
def check_type (ty : String) (mask : Nat) : Bool :=
  decide (popcount8 mask ≤ type2bits ty)

/-- The process-wide interface-name tables
(`all_state_interface_names` / `all_command_interface_names`), both
initialised to `{"unknown"}`. -/
structure Globals where
  all_state_interface_names : List String
  all_command_interface_names : List String
deriving DecidableEq, Repr

/-- The initial contents of the global name tables. -/
def initialGlobals : Globals :=
  { all_state_interface_names := ["unknown"],
    all_command_interface_names := ["unknown"] }

/-- `InterfaceData`: per-channel/slot scalar state with its C++ default
member initialisers. -/
structure InterfaceData where
  override_command : Bool := false
  mask : Nat := 255
  default_value : EDouble := .nan
  last_value : EDouble := .nan
  factor : EDouble := .val 1
  offset : EDouble := .val 0
deriving DecidableEq, Repr

/-- `PdoType`. -/
inductive PdoType where
  | RPDO
  | TPDO
deriving DecidableEq, Repr

/-- The `size_t` max sentinel returned as data by `is_interface_managed`. -/
def usizeMax : Nat := 2 ^ 64 - 1

/-- Null-pointer-call fallback for a missing read function (undefined
behaviour in C++, never exercised by a theorem). -/
def callRead (rf : Option ReadFn) : ReadFn := rf.getD (fun _ _ _ => .nan)

/-- Null-pointer-call fallback for a missing write function (undefined
behaviour in C++, never exercised by a theorem). -/
def callWrite (wf : Option WriteFn) : WriteFn := wf.getD (fun dom _ _ _ => dom)

/-- `EcPdoSingleInterfaceChannelManager`: one PDO entry bound to at most one
state and one command interface (inherits `InterfaceData`).  `pdo_type` is
uninitialised in C++ and always set by the caller; interface indices use the
`size_t` max sentinel, modelled as `none`. -/
structure EcPdoSingleInterfaceChannelManager extends InterfaceData where
  pdo_type : PdoType := .RPDO
  index : Nat := 0
  sub_index : Nat := 0
  allow_ec_write : Bool := true
  skip : Bool := false
  bits_ : Nat := 0
  data_type_idx_ : Nat := 0
  read_function_ : Option ReadFn := none
  write_function_ : Option WriteFn := none
  state_interface_index_ : Option Nat := none
  command_interface_index_ : Option Nat := none
  state_interface_name_idx_ : Nat := 0
  command_interface_name_idx_ : Nat := 0

/-- The already-parsed key/value view of a single-interface channel
configuration node (a key maps to `none` when absent). -/
structure SingleChannelConfig where
  index : Option Nat := none
  sub_index : Option Nat := none
  type_ : Option String := none
  command_interface : Option String := none
  state_interface : Option String := none
  default_ : Option ℚ := none
  factor : Option ℚ := none
  offset : Option ℚ := none
  mask : Option Nat := none
  skip : Option Bool := none

namespace EcPdoSingleInterfaceChannelManager

/-- The interface-name/factor/offset/mask/skip tail of
`EcPdoSingleInterfaceChannelManager::load_from_config` (everything after
the data-type section). -/
def load_tail (g : Globals) (m : EcPdoSingleInterfaceChannelManager)
    (cfg : SingleChannelConfig) :
    Bool × Globals × EcPdoSingleInterfaceChannelManager :=
  let gm :=
    match cfg.command_interface with
    | some name =>
      let m := { m with state_interface_name_idx_ := g.all_state_interface_names.length }
      let g := { g with all_state_interface_names := g.all_state_interface_names ++ [name] }
      let m :=
        match cfg.default_ with
        | some d => { m with default_value := .val d }
        | none => m
      (g, m)
    | none => (g, m)
  let g := gm.1
  let m := gm.2
  let gm :=
    match cfg.state_interface with
    | some name =>
      let m := { m with command_interface_name_idx_ := g.all_command_interface_names.length }
      let g := { g with all_command_interface_names := g.all_command_interface_names ++ [name] }
      (g, m)
    | none => (g, m)
  let g := gm.1
  let m := gm.2
  let m := match cfg.factor with | some f => { m with factor := .val f } | none => m
  let m := match cfg.offset with | some o => { m with offset := .val o } | none => m
  let m := match cfg.mask with | some mv => { m with mask := mv } | none => m
  let m := match cfg.skip with | some s => { m with skip := s } | none => m
  (true, g, m)

/-- `EcPdoSingleInterfaceChannelManager::load_from_config`.  Missing
`index`/`sub_index`/`type` keys only log a diagnostic and load proceeds;
an unknown data type fails the load.  Note: the `command_interface` key
populates the state-name table and `state_interface` the command-name
table, exactly as the source does. -/
def load_from_config (g : Globals) (m : EcPdoSingleInterfaceChannelManager)
    (cfg : SingleChannelConfig) :
    Bool × Globals × EcPdoSingleInterfaceChannelManager :=
  let m := match cfg.index with | some v => { m with index := v } | none => m
  let m := match cfg.sub_index with | some v => { m with sub_index := v } | none => m
  match cfg.type_ with
  | some dt =>
    let m := { m with data_type_idx_ := typeIdx dt }
    if typeIdx dt = 0 then (false, g, m)
    else
      let m := { m with
        bits_ := type2bits dt,
        read_function_ := ec_pdo_single_read_functions.getD (typeIdx dt) none,
        write_function_ := ec_pdo_single_write_functions.getD (typeIdx dt) none }
      load_tail g m cfg
  | none => load_tail g m cfg

/-- `EcPdoSingleInterfaceChannelManager::ec_read`: decode, scale, mirror
into the bound state-interface entry.  Returns the updated manager, the
updated state array and the value. -/
def ec_read (m : EcPdoSingleInterfaceChannelManager) (dom : Domain) (addr : Nat)
    (s : List EDouble) :
    EcPdoSingleInterfaceChannelManager × List EDouble × EDouble :=
  let lv0 := callRead m.read_function_ dom addr m.mask
  let lv := m.factor * lv0 + m.offset
  let s :=
    match m.state_interface_index_ with
    | some i => s.set i lv
    | none => s
  ({ m with last_value := lv }, s, lv)

/-- `EcPdoSingleInterfaceChannelManager::ec_read_to_interface`. -/
def ec_read_to_interface (m : EcPdoSingleInterfaceChannelManager) (dom : Domain)
    (addr : Nat) (s : List EDouble) :
    EcPdoSingleInterfaceChannelManager × List EDouble :=
  let r := ec_read m dom addr s
  let s :=
    match r.1.state_interface_index_ with
    | some i => r.2.1.set i r.1.last_value
    | none => r.2.1
  (r.1, s)

/-- `EcPdoSingleInterfaceChannelManager::ec_write`.  Note the source tests
`std::isnan(default_value)` (not the candidate value) in its first branch. -/
def ec_write (m : EcPdoSingleInterfaceChannelManager) (dom : Domain) (addr : Nat)
    (value : EDouble) :
    EcPdoSingleInterfaceChannelManager × Domain :=
  if m.pdo_type != PdoType.RPDO || !m.allow_ec_write then (m, dom)
  else if !m.default_value.isNaN && !m.override_command then
    let lv := m.factor * value + m.offset
    ({ m with last_value := lv }, callWrite m.write_function_ dom addr lv m.mask)
  else if !m.default_value.isNaN then
    ({ m with last_value := m.default_value },
     callWrite m.write_function_ dom addr m.default_value m.mask)
  else (m, dom)

/-- `EcPdoSingleInterfaceChannelManager::ec_write_from_interface`. -/
def ec_write_from_interface (m : EcPdoSingleInterfaceChannelManager) (dom : Domain)
    (addr : Nat) (c : List EDouble) :
    EcPdoSingleInterfaceChannelManager × Domain :=
  match m.command_interface_index_ with
  | some i => ec_write m dom addr (c.getD i .nan)
  | none =>
    if m.pdo_type == PdoType.RPDO && m.allow_ec_write && !m.default_value.isNaN then
      ({ m with last_value := m.default_value },
       callWrite m.write_function_ dom addr m.default_value m.mask)
    else (m, dom)

/-- `EcPdoSingleInterfaceChannelManager::ec_update`: decode to the state
array, then encode from the command array.  Returns (manager, domain,
state array). -/
def ec_update (m : EcPdoSingleInterfaceChannelManager) (dom : Domain) (addr : Nat)
    (s c : List EDouble) :
    EcPdoSingleInterfaceChannelManager × Domain × List EDouble :=
  let p := ec_read_to_interface m dom addr s
  let q := ec_write_from_interface p.1 dom addr c
  (q.1, q.2, p.2)

end EcPdoSingleInterfaceChannelManager

/-- `InterfaceDataWithAddrOffset`: per-slot data of a group channel. -/
structure InterfaceDataWithAddrOffset extends InterfaceData where
  addr_offset : Nat := 0
  bits : Nat := 0
  data_type_idx : Nat := 0
deriving DecidableEq, Repr

/-- `EcPdoGroupInterfaceChannelManager`: one PDO entry subdivided into an
ordered sequence of slots, kept in parallel per-slot collections.
`interface_ids_` entries use the `size_t` max sentinel, modelled as
`none`; `managed_` (used by the cpp, declaration missing from the provided
header) lists the slot indices added with a bound interface. -/
structure EcPdoGroupInterfaceChannelManager where
  pdo_type : PdoType := .RPDO
  index : Nat := 0
  sub_index : Nat := 0
  allow_ec_write : Bool := true
  skip : Bool := false
  bits_ : Nat := 0
  data_type_idx_ : Nat := 0
  v_data : List InterfaceDataWithAddrOffset := []
  interface_ids_ : List (Option Nat) := []
  is_command_interface_ : List Bool := []
  read_functions_ : List (Option ReadFn) := []
  write_functions_ : List (Option WriteFn) := []
  interface_name_ids_ : List Nat := []
  managed_ : List Nat := []

/-- A fresh group manager (all collections empty). -/
def emptyGroupManager : EcPdoGroupInterfaceChannelManager := {}

/-- One entry of a group channel's `data_mapping` list. -/
structure DataMappingEntry where
  addr_offset : Option Nat := none
  type_ : Option String := none
  command_interface : Option String := none
  state_interface : Option String := none
  default_value : Option ℚ := none
  factor : Option ℚ := none
  offset : Option ℚ := none
  mask : Option Nat := none

/-- The already-parsed key/value view of a group channel configuration. -/
structure GroupChannelConfig where
  index : Option Nat := none
  sub_index : Option Nat := none
  type_ : Option String := none
  command_interface : Option String := none
  state_interface : Option String := none
  factor : Option ℚ := none
  offset : Option ℚ := none
  mask : Option Nat := none
  skip : Option Bool := none
  data_mapping : Option (List DataMappingEntry) := none

namespace EcPdoGroupInterfaceChannelManager

/-- `has_interface_name`: the slot's name-table index is nonzero. -/
def has_interface_name (m : EcPdoGroupInterfaceChannelManager) (i : Nat) : Bool :=
  m.interface_name_ids_.getD i 0 != 0

/-- `EcPdoGroupInterfaceChannelManager::interface_name`: the bound name of
slot `i`, the literal "null" for an unbound slot, `none` (the
`std::out_of_range` throw) past the end. -/
def interface_name (g : Globals) (m : EcPdoGroupInterfaceChannelManager)
    (i : Nat) : Option String :=
  if i < m.v_data.length then
    if m.has_interface_name i then
      if m.is_command_interface_.getD i false then
        some (g.all_command_interface_names.getD (m.interface_name_ids_.getD i 0) "")
      else
        some (g.all_state_interface_names.getD (m.interface_name_ids_.getD i 0) "")
    else some "null"
  else none

/-- `EcPdoGroupInterfaceChannelManager::is_interface_managed`: linear scan
for the first slot whose `interface_name` equals `name`. -/
def is_interface_managed (g : Globals) (m : EcPdoGroupInterfaceChannelManager)
    (name : String) : Bool × Nat :=
  match (List.range m.v_data.length).find? (fun i => interface_name g m i == some name) with
  | some i => (true, i)
  | none => (false, usizeMax)

/-- `allocate_for_new_interface`: grow the five always-parallel collections
by one default entry each. -/
def allocate_for_new_interface (m : EcPdoGroupInterfaceChannelManager) :
    EcPdoGroupInterfaceChannelManager :=
  { m with
    v_data := m.v_data ++ [{}],
    interface_ids_ := m.interface_ids_ ++ [none],
    is_command_interface_ := m.is_command_interface_ ++ [false],
    read_functions_ := m.read_functions_ ++ [none],
    write_functions_ := m.write_functions_ ++ [none] }

/-- `EcPdoGroupInterfaceChannelManager::add_command_interface`. -/
def add_command_interface (g : Globals) (m : EcPdoGroupInterfaceChannelManager)
    (name : String) : Globals × EcPdoGroupInterfaceChannelManager × Nat :=
  let managed := is_interface_managed g m name
  if managed.1 then (g, m, managed.2)
  else
    let id := m.v_data.length
    let m := allocate_for_new_interface m
    let m := { m with is_command_interface_ := m.is_command_interface_.set id true }
    let name_idx := g.all_command_interface_names.length
    let g := { g with all_command_interface_names := g.all_command_interface_names ++ [name] }
    let m := { m with
      interface_name_ids_ := m.interface_name_ids_ ++ [name_idx],
      managed_ := m.managed_ ++ [id] }
    (g, m, id)

/-- `EcPdoGroupInterfaceChannelManager::add_state_interface`. -/
def add_state_interface (g : Globals) (m : EcPdoGroupInterfaceChannelManager)
    (name : String) : Globals × EcPdoGroupInterfaceChannelManager × Nat :=
  let managed := is_interface_managed g m name
  if managed.1 then (g, m, managed.2)
  else
    let id := m.v_data.length
    let m := allocate_for_new_interface m
    let m := { m with is_command_interface_ := m.is_command_interface_.set id false }
    let name_idx := g.all_state_interface_names.length
    let g := { g with all_state_interface_names := g.all_state_interface_names ++ [name] }
    let m := { m with
      interface_name_ids_ := m.interface_name_ids_ ++ [name_idx],
      managed_ := m.managed_ ++ [id] }
    (g, m, id)

/-- `EcPdoGroupInterfaceChannelManager::add_data_without_interface`:
a codec-configured slot with no bound interface (name-table index 0),
excluded from `managed_`. -/
def add_data_without_interface (m : EcPdoGroupInterfaceChannelManager) :
    EcPdoGroupInterfaceChannelManager × Nat :=
  let id := m.v_data.length
  let m := allocate_for_new_interface m
  let m := { m with
    is_command_interface_ := m.is_command_interface_.set id false,
    interface_name_ids_ := m.interface_name_ids_ ++ [0] }
  (m, id)

/-- `EcPdoGroupInterfaceChannelManager::number_of_managed_interfaces`
(as the provided header defines it: the size of `v_data`). -/
def number_of_managed_interfaces (m : EcPdoGroupInterfaceChannelManager) : Nat :=
  m.v_data.length

/-- The number of slots actually bound to a named interface (what the spec
says `number_of_managed_interfaces` counts): slots whose name-table index
is nonzero. -/
def number_of_name_bound_slots (m : EcPdoGroupInterfaceChannelManager) : Nat :=
  (m.interface_name_ids_.filter (fun id => id != 0)).length

def is_interface_defined (m : EcPdoGroupInterfaceChannelManager) (i : Nat) : Bool :=
  (m.interface_ids_.getD i none).isSome

def is_state_interface_defined (m : EcPdoGroupInterfaceChannelManager) (i : Nat) : Bool :=
  m.is_interface_defined i && !(m.is_command_interface_.getD i false)

def is_command_interface_defined (m : EcPdoGroupInterfaceChannelManager) (i : Nat) : Bool :=
  m.is_interface_defined i && m.is_command_interface_.getD i false

/-- Update slot `i` of `v_data` in place. -/
def updData (m : EcPdoGroupInterfaceChannelManager) (i : Nat)
    (f : InterfaceDataWithAddrOffset → InterfaceDataWithAddrOffset) :
    EcPdoGroupInterfaceChannelManager :=
  { m with v_data := m.v_data.set i (f (m.v_data.getD i {})) }

/-- `EcPdoGroupInterfaceChannelManager::ec_read` for slot `i`. -/
def ec_read (m : EcPdoGroupInterfaceChannelManager) (dom : Domain) (addr : Nat)
    (s : List EDouble) (i : Nat) :
    EcPdoGroupInterfaceChannelManager × List EDouble × EDouble :=
  let d := m.v_data.getD i {}
  let lv0 := callRead (m.read_functions_.getD i none) dom (addr + d.addr_offset) d.mask
  let lv := d.factor * lv0 + d.offset
  let s :=
    if m.is_state_interface_defined i then
      s.set ((m.interface_ids_.getD i none).getD 0) lv
    else s
  (updData m i (fun d0 => { d0 with last_value := lv }), s, lv)

/-- `EcPdoGroupInterfaceChannelManager::ec_read_to_interface`: bulk decode
over the managed slots. -/
def ec_read_to_interface (m : EcPdoGroupInterfaceChannelManager) (dom : Domain)
    (addr : Nat) (s : List EDouble) :
    EcPdoGroupInterfaceChannelManager × List EDouble :=
  m.managed_.foldl
    (fun p idx =>
      let r := ec_read p.1 dom addr p.2 idx
      let s :=
        if r.1.is_state_interface_defined idx then
          r.2.1.set ((r.1.interface_ids_.getD idx none).getD 0)
            ((r.1.v_data.getD idx {}).last_value)
        else r.2.1
      (r.1, s))
    (m, s)

/-- `EcPdoGroupInterfaceChannelManager::ec_write` for slot `i` (this variant
tests `std::isnan(value)`, unlike the single-interface one). -/
def ec_write (m : EcPdoGroupInterfaceChannelManager) (dom : Domain) (addr : Nat)
    (value : EDouble) (i : Nat) :
    EcPdoGroupInterfaceChannelManager × Domain :=
  if m.pdo_type != PdoType.RPDO || !m.allow_ec_write then (m, dom)
  else
    let d := m.v_data.getD i {}
    if !value.isNaN && !d.override_command then
      let lv := d.factor * value + d.offset
      (updData m i (fun d0 => { d0 with last_value := lv }),
       callWrite (m.write_functions_.getD i none) dom (addr + d.addr_offset) lv d.mask)
    else if !d.default_value.isNaN then
      (updData m i (fun d0 => { d0 with last_value := d.default_value }),
       callWrite (m.write_functions_.getD i none) dom (addr + d.addr_offset)
         d.default_value d.mask)
    else (m, dom)

/-- `EcPdoGroupInterfaceChannelManager::ec_write_from_interface`: bulk
encode over the managed slots; state-only slots inject the configured
default unconditionally. -/
def ec_write_from_interface (m : EcPdoGroupInterfaceChannelManager) (dom : Domain)
    (addr : Nat) (c : List EDouble) :
    EcPdoGroupInterfaceChannelManager × Domain :=
  m.managed_.foldl
    (fun p idx =>
      let m := p.1
      let dom := p.2
      if m.is_command_interface_defined idx then
        ec_write m dom addr (c.getD ((m.interface_ids_.getD idx none).getD 0) .nan) idx
      else
        let d := m.v_data.getD idx {}
        if m.pdo_type == PdoType.RPDO && m.allow_ec_write && !d.default_value.isNaN then
          (updData m idx (fun d0 => { d0 with last_value := d.default_value }),
           callWrite (m.write_functions_.getD idx none) dom (addr + d.addr_offset)
             d.default_value d.mask)
        else (m, dom))
    (m, dom)

/-- `EcPdoChannelManager::ec_update` as inherited by the group manager:
decode to the state array, then encode from the command array. -/
def ec_update (m : EcPdoGroupInterfaceChannelManager) (dom : Domain) (addr : Nat)
    (s c : List EDouble) :
    EcPdoGroupInterfaceChannelManager × Domain × List EDouble :=
  let p := ec_read_to_interface m dom addr s
  let q := ec_write_from_interface p.1 dom addr c
  (q.1, q.2, p.2)

end EcPdoGroupInterfaceChannelManager

namespace EcPdoGroupInterfaceChannelManager

/-- The `data_mapping` loop of
`EcPdoGroupInterfaceChannelManager::load_from_config`.  `data_type` threads
the cpp's local `std::string data_type`, which keeps its previous value
when an entry has no `type` key. -/
def load_mapping (g : Globals) (m : EcPdoGroupInterfaceChannelManager)
    (data_type : String) :
    List DataMappingEntry → Bool × Globals × EcPdoGroupInterfaceChannelManager
  | [] => (true, g, m)
  | map :: rest =>
    let gmi :
        Globals × EcPdoGroupInterfaceChannelManager × Option Nat :=
      match map.command_interface with
      | some name =>
        let r := add_command_interface g m name
        let m :=
          match map.default_value with
          | some dv => updData r.2.1 r.2.2 (fun d => { d with default_value := .val dv })
          | none => r.2.1
        (r.1, m, some r.2.2)
      | none => (g, m, none)
    let gmi :=
      match map.state_interface with
      | some name =>
        let r := add_state_interface gmi.1 gmi.2.1 name
        (r.1, r.2.1, some r.2.2)
      | none => gmi
    let g := gmi.1
    let mi :
        EcPdoGroupInterfaceChannelManager × Nat :=
      match gmi.2.2 with
      | some id => (gmi.2.1, id)
      | none => add_data_without_interface gmi.2.1
    let m := mi.1
    let id := mi.2
    let m :=
      match map.addr_offset with
      | some ao => updData m id (fun d => { d with addr_offset := ao })
      | none => m
    let step : Bool × EcPdoGroupInterfaceChannelManager × String :=
      match map.type_ with
      | some t =>
        let ti := typeIdx t
        let m := updData m id (fun d => { d with data_type_idx := ti })
        if ti = 0 then (false, m, t)
        else
          let m := updData m id (fun d => { d with bits := type2bits t })
          let m := { m with
            read_functions_ := m.read_functions_.set id (ec_pdo_single_read_functions.getD ti none),
            write_functions_ := m.write_functions_.set id (ec_pdo_single_write_functions.getD ti none) }
          (true, m, t)
      | none => (true, m, data_type)
    if step.1 = false then (false, g, step.2.1)
    else
      let m := step.2.1
      let data_type := step.2.2
      let m :=
        match map.factor with
        | some f => updData m id (fun d => { d with factor := .val f })
        | none => m
      let m :=
        match map.offset with
        | some o => updData m id (fun d => { d with offset := .val o })
        | none => m
      match map.mask with
      | some mv =>
        let m := updData m id (fun d => { d with mask := mv })
        if check_type data_type mv then load_mapping g m data_type rest
        else (false, g, m)
      | none => load_mapping g m data_type rest

/-- The skip / `data_mapping` tail of the group loader. -/
def load_tail (g : Globals) (m : EcPdoGroupInterfaceChannelManager)
    (data_type : String) (cfg : GroupChannelConfig) :
    Bool × Globals × EcPdoGroupInterfaceChannelManager :=
  let m := match cfg.skip with | some s => { m with skip := s } | none => m
  match cfg.data_mapping with
  | some maps => load_mapping g m data_type maps
  | none => (true, g, m)

/-- `EcPdoGroupInterfaceChannelManager::load_from_config`.  `none` models
the `std::runtime_error` thrown for a channel-level `command_interface`
key.  The channel-level section builds slot 0 (the synthetic whole-entry
view), then `data_mapping` adds the sub-slots. -/
def load_from_config (g : Globals) (m : EcPdoGroupInterfaceChannelManager)
    (cfg : GroupChannelConfig) :
    Option (Bool × Globals × EcPdoGroupInterfaceChannelManager) :=
  let m := match cfg.index with | some v => { m with index := v } | none => m
  let m := match cfg.sub_index with | some v => { m with sub_index := v } | none => m
  let step : Bool × EcPdoGroupInterfaceChannelManager × String :=
    match cfg.type_ with
    | some t =>
      let m := { m with data_type_idx_ := typeIdx t }
      if typeIdx t = 0 then (false, m, t)
      else (true, { m with bits_ := type2bits t }, t)
    | none => (true, m, "")
  if step.1 = false then some (false, g, step.2.1)
  else
    let m := step.2.1
    let data_type := step.2.2
    if cfg.command_interface.isSome then none
    else
      let gmi :
          Globals × EcPdoGroupInterfaceChannelManager × Nat :=
        match cfg.state_interface with
        | some name => add_state_interface g m name
        | none =>
          let r := add_data_without_interface m
          (g, r.1, r.2)
      let g := gmi.1
      let m := gmi.2.1
      let id := gmi.2.2
      let m := updData m id (fun d =>
        { d with data_type_idx := m.data_type_idx_, bits := m.bits_ })
      let m := { m with
        read_functions_ := m.read_functions_.set id
          (ec_pdo_single_read_functions.getD m.data_type_idx_ none) }
      let m :=
        match cfg.factor with
        | some f => updData m id (fun d => { d with factor := .val f })
        | none => m
      let m :=
        match cfg.offset with
        | some o => updData m id (fun d => { d with offset := .val o })
        | none => m
      match cfg.mask with
      | some mv =>
        let m := updData m id (fun d => { d with mask := mv })
        if check_type data_type mv then some (load_tail g m data_type cfg)
        else some (false, g, m)
      | none => some (load_tail g m data_type cfg)

end EcPdoGroupInterfaceChannelManager

/-- Spec-side composition for the single manager: call
`ec_read_to_interface`, then `ec_write_from_interface`, in that order. -/
def decode_then_encode_single (m : EcPdoSingleInterfaceChannelManager) (dom : Domain)
    (addr : Nat) (s c : List EDouble) :
    EcPdoSingleInterfaceChannelManager × Domain × List EDouble :=
  let p := EcPdoSingleInterfaceChannelManager.ec_read_to_interface m dom addr s
  let q := EcPdoSingleInterfaceChannelManager.ec_write_from_interface p.1 dom addr c
  (q.1, q.2, p.2)

/-- Spec-side composition for the group manager: call
`ec_read_to_interface`, then `ec_write_from_interface`, in that order. -/
def decode_then_encode_group (m : EcPdoGroupInterfaceChannelManager) (dom : Domain)
    (addr : Nat) (s c : List EDouble) :
    EcPdoGroupInterfaceChannelManager × Domain × List EDouble :=
  let p := EcPdoGroupInterfaceChannelManager.ec_read_to_interface m dom addr s
  let q := EcPdoGroupInterfaceChannelManager.ec_write_from_interface p.1 dom addr c
  (q.1, q.2, p.2)

/-- All six parallel per-slot collections of a group channel have the same
length. -/
def parallelAligned (m : EcPdoGroupInterfaceChannelManager) : Prop :=
  m.interface_ids_.length = m.v_data.length ∧
  m.is_command_interface_.length = m.v_data.length ∧
  m.read_functions_.length = m.v_data.length ∧
  m.write_functions_.length = m.v_data.length ∧
  m.interface_name_ids_.length = m.v_data.length

/-- Well-formedness of the name bookkeeping of a group channel against the
global tables: the name-id and direction collections are parallel, the
global command table is non-empty (it starts as `{"unknown"}` and never
shrinks), and every command slot's name id points inside the global
command table. -/
def GroupNamesWF (g : Globals) (m : EcPdoGroupInterfaceChannelManager) : Prop :=
  m.interface_name_ids_.length = m.v_data.length ∧
  m.is_command_interface_.length = m.v_data.length ∧
  1 ≤ g.all_command_interface_names.length ∧
  ∀ i, i < m.v_data.length → m.is_command_interface_.getD i false = true →
    m.interface_name_ids_.getD i 0 < g.all_command_interface_names.length

/-- A two-slot group channel used by concrete witnesses: one slot bound to
the state interface "x", then one unbound (padding) slot. -/
def witnessChannel : Globals × EcPdoGroupInterfaceChannelManager :=
  let t1 := EcPdoGroupInterfaceChannelManager.add_state_interface initialGlobals
    emptyGroupManager "x"
  let t2 := EcPdoGroupInterfaceChannelManager.add_data_without_interface t1.2.1
  (t1.1, t2.1)

/-! ## List helper lemmas -/

theorem listGetD_append_left {α : Type} (l l' : List α) (i : Nat) (d : α)
    (h : i < l.length) : (l ++ l').getD i d = l.getD i d := by
  induction l generalizing i with
  | nil => simp at h
  | cons a t ih =>
    cases i with
    | zero => simp [List.getD]
    | succ k =>
      simp only [List.cons_append, List.getD_cons_succ]
      exact ih k (by simpa using h)

theorem listGetD_concat_self {α : Type} (l : List α) (a d : α) :
    (l ++ [a]).getD l.length d = a := by
  induction l with
  | nil => simp [List.getD]
  | cons b t ih => simp [ih]

theorem listGetD_set_ne {α : Type} (l : List α) (i j : Nat) (a d : α)
    (h : i ≠ j) : (l.set i a).getD j d = l.getD j d := by
  induction l generalizing i j with
  | nil => simp
  | cons b t ih =>
    cases i with
    | zero =>
      cases j with
      | zero => exact absurd rfl h
      | succ k => simp [List.getD]
    | succ n =>
      cases j with
      | zero => simp [List.getD]
      | succ k =>
        simp only [List.set_cons_succ, List.getD_cons_succ]
        exact ih n k (by omega)

theorem listGetD_set_self {α : Type} (l : List α) (i : Nat) (a d : α)
    (h : i < l.length) : (l.set i a).getD i d = a := by
  induction l generalizing i with
  | nil => simp at h
  | cons b t ih =>
    cases i with
    | zero => simp [List.getD]
    | succ k =>
      simp only [List.set_cons_succ, List.getD_cons_succ]
      exact ih k (by simpa using h)

theorem find?_range'_first (p : Nat → Bool) :
    ∀ (cnt s i : Nat), s ≤ i → i < s + cnt → p i = true →
      (∀ j, s ≤ j → j < i → p j = false) →
      (List.range' s cnt).find? p = some i := by
  intro cnt
  induction cnt with
  | zero => intro s i h1 h2; omega
  | succ c ih =>
    intro s i h1 h2 hp hb
    rw [List.range'_succ]
    by_cases hsi : s = i
    · subst hsi
      simp [List.find?, hp]
    · have hps : p s = false := hb s le_rfl (by omega)
      simp only [List.find?, hps]
      exact ih (s + 1) i (by omega) (by omega) hp (fun j hj1 hj2 => hb j (by omega) hj2)

theorem find?_range_first (p : Nat → Bool) (n i : Nat) (hi : i < n)
    (hp : p i = true) (hb : ∀ j, j < i → p j = false) :
    (List.range n).find? p = some i := by
  rw [List.range_eq_range']
  exact find?_range'_first p n 0 i (Nat.zero_le i) (by omega) hp
    (fun j _ hj => hb j hj)

/-! ## Group-channel name-lookup lemmas -/

open EcPdoGroupInterfaceChannelManager in
/-- The reported name of an in-range slot is unchanged when the manager's
collections are extended past `j` and the global command table grows, as
long as the slot's own entries are untouched and (for a command slot) its
name id stays inside the old command table. -/
theorem interface_name_extend
    (g g' : Globals) (m m' : EcPdoGroupInterfaceChannelManager) (j : Nat)
    (hj : j < m.v_data.length)
    (hj' : j < m'.v_data.length)
    (hids : m'.interface_name_ids_.getD j 0 = m.interface_name_ids_.getD j 0)
    (hcmd : m'.is_command_interface_.getD j false = m.is_command_interface_.getD j false)
    (hstate : g'.all_state_interface_names = g.all_state_interface_names)
    (hcmdnames : ∀ k, k < g.all_command_interface_names.length →
        g'.all_command_interface_names.getD k "" = g.all_command_interface_names.getD k "")
    (hbound : m.is_command_interface_.getD j false = true →
        m.interface_name_ids_.getD j 0 < g.all_command_interface_names.length) :
    interface_name g' m' j = interface_name g m j := by
  rw [interface_name, interface_name, if_pos hj, if_pos hj']
  have hhn : m'.has_interface_name j = m.has_interface_name j := by
    rw [has_interface_name, has_interface_name, hids]
  rw [hhn, hcmd, hids, hstate]
  cases hb : m.has_interface_name j with
  | false => simp [hb]
  | true =>
    simp only [hb, if_true]
    cases hc : m.is_command_interface_.getD j false with
    | false => simp [hc]
    | true =>
      simp only [hc, if_true]
      rw [hcmdnames _ (hbound hc)]

open EcPdoGroupInterfaceChannelManager in
/-- After appending a slot for a name that was not managed, scanning for
that name finds exactly the new slot. -/
theorem add_command_interface_finds_new
    (g1 : Globals) (m1 : EcPdoGroupInterfaceChannelManager)
    (g : Globals) (m : EcPdoGroupInterfaceChannelManager) (name : String)
    (hv1 : m1.v_data.length = m.v_data.length + 1)
    (hids1 : m1.interface_name_ids_ =
      m.interface_name_ids_ ++ [g.all_command_interface_names.length])
    (hcmd1 : m1.is_command_interface_ =
      (m.is_command_interface_ ++ [false]).set m.v_data.length true)
    (hst1 : g1.all_state_interface_names = g.all_state_interface_names)
    (hcn1 : g1.all_command_interface_names = g.all_command_interface_names ++ [name])
    (hlen_ids : m.interface_name_ids_.length = m.v_data.length)
    (hlen_cmd : m.is_command_interface_.length = m.v_data.length)
    (hK : 1 ≤ g.all_command_interface_names.length)
    (hbound : ∀ i, i < m.v_data.length → m.is_command_interface_.getD i false = true →
      m.interface_name_ids_.getD i 0 < g.all_command_interface_names.length)
    (hnone : (List.range m.v_data.length).find?
      (fun i => interface_name g m i == some name) = none) :
    is_interface_managed g1 m1 name = (true, m.v_data.length) := by
  have hnoneAll := List.find?_eq_none.mp hnone
  have hpL : interface_name g1 m1 (m.v_data.length) = some name := by
    rw [interface_name, if_pos (by omega)]
    have hgetids : m1.interface_name_ids_.getD m.v_data.length 0 =
        g.all_command_interface_names.length := by
      rw [hids1, ← hlen_ids]
      exact listGetD_concat_self _ _ _
    have hgetcmd : m1.is_command_interface_.getD m.v_data.length false = true := by
      rw [hcmd1]
      exact listGetD_set_self _ _ _ _ (by simp [hlen_cmd])
    have hhn : m1.has_interface_name m.v_data.length = true := by
      rw [has_interface_name]
      rw [hgetids]
      have hne : g.all_command_interface_names.length ≠ 0 := by omega
      simpa using hne
    rw [hhn, if_pos rfl, hgetcmd, if_pos rfl, hgetids, hcn1]
    rw [listGetD_concat_self]
  have hbefore : ∀ j, j < m.v_data.length →
      ((interface_name g1 m1 j == some name) = false) := by
    intro j hj
    have hstable : interface_name g1 m1 j = interface_name g m j := by
      refine interface_name_extend g g1 m m1 j hj (by omega) ?_ ?_ hst1 ?_ ?_
      · rw [hids1]
        exact listGetD_append_left _ _ _ _ (by omega)
      · rw [hcmd1, listGetD_set_ne _ _ _ _ _ (by omega)]
        exact listGetD_append_left _ _ _ _ (by omega)
      · intro k hk
        rw [hcn1]
        exact listGetD_append_left _ _ _ _ hk
      · exact hbound j hj
    rw [hstable]
    have := hnoneAll j (List.mem_range.mpr hj)
    simpa using this
  rw [is_interface_managed, hv1]
  rw [find?_range_first _ _ (m.v_data.length) (by omega) (by simpa using hpL) hbefore]

/-! ## Claim theorems -/

/-- C1: evaluation of the code at the failing input.  A single-interface
channel loaded from the repo test config `{type: bit2, mask: 3}` (RPDO,
writing enabled, `override_command = false`, no default configured) is
asked to `ec_write` the non-NaN candidate 5 onto a zeroed wire.  The claim
(and the repository's own `EcReadWriteBit2` test, which expects the masked
compose `5 &&& 3 = 1` on the wire) requires a write of `factor*5+offset`;
the code performs no write at all and stores no `last_value`, because its
first branch tests `std::isnan(default_value)` instead of
`std::isnan(value)`. -/
theorem C1_single_ec_write_drops_valid_candidate :
    (let r := EcPdoSingleInterfaceChannelManager.load_from_config initialGlobals {}
      { index := some 0x6071, sub_index := some 0, type_ := some "bit2", mask := some 3 }
     let m := { r.2.2 with pdo_type := PdoType.RPDO }
     let w := EcPdoSingleInterfaceChannelManager.ec_write m (fun _ => 0) 0 (EDouble.val 5)
     r.1 = true ∧ m.pdo_type = PdoType.RPDO ∧ m.allow_ec_write = true ∧
       m.override_command = false ∧ m.default_value = EDouble.nan ∧
       (EDouble.val 5).isNaN = false ∧
       w.2 0 = 0 ∧ w.1.last_value = EDouble.nan) := by
  decide

/-- C2: evaluation of the code at the failing input.  A single-interface
channel of type `bool` with mask 5 loads successfully (the single loader
performs no mask/type validation at all), although the spec-modelled
`check_type` rejects the combination and the repository's own
`EcReadWriteBoolMask5` test expects the load to fail; the group loader
does reject the same slot configuration. -/
theorem C2_single_load_accepts_bool_mask5 :
    (EcPdoSingleInterfaceChannelManager.load_from_config initialGlobals {}
      { index := some 0x6071, sub_index := some 0, type_ := some "bool",
        mask := some 5 }).1 = true ∧
    check_type "bool" 5 = false ∧
    (EcPdoGroupInterfaceChannelManager.load_from_config initialGlobals emptyGroupManager
      { index := some 0x6071, sub_index := some 0, type_ := some "bit8",
        data_mapping := some [{ type_ := some "bool", mask := some 5 }] }).map
      (fun r => r.1) = some false := by
  decide

/-- C3 counterexample: the round trip fails at the table entry "bit":
`type2bits "bit"` fails closed to 0 (the suffix after "bit" is empty), so
the reconstruction yields "bit0", not "bit". -/
theorem C3_roundtrip_fails_at_bit :
    "bit" ∈ ec_pdo_channel_data_types ∧
    id_and_bits_to_type (typeIdx "bit") (type2bits "bit") = some "bit0" ∧
    id_and_bits_to_type (typeIdx "bit") (type2bits "bit") ≠ some "bit" := by
  decide

/-- C3 (amended): for every name in the fixed type table except "bit",
`id_and_bits_to_type (typeIdx name) (type2bits name)` equals the name. -/
theorem C3_roundtrip_except_bit (name : String)
    (h1 : name ∈ ec_pdo_channel_data_types) (h2 : name ≠ "bit") :
    id_and_bits_to_type (typeIdx name) (type2bits name) = some name := by
  fin_cases h1 <;> first
    | exact absurd rfl h2
    | decide

/-- C3 witness: the amended round trip at the concrete entry "bool". -/
theorem C3_roundtrip_except_bit_witness :
    ("bool" ∈ ec_pdo_channel_data_types ∧ "bool" ≠ "bit") ∧
    id_and_bits_to_type (typeIdx "bool") (type2bits "bool") = some "bool" :=
  ⟨⟨by decide, by decide⟩, C3_roundtrip_except_bit "bool" (by decide) (by decide)⟩

/-- C4: evaluation of the code at the failing input.  On a group channel
with one slot bound to the state interface "x" and one unbound padding
slot, `number_of_managed_interfaces` returns 2 (the total slot count,
`v_data.size()`), while only 1 slot is bound to a name — the count the
claim (and the repository's own `LoadConfigTest`, which expects 2 managed
out of 5 slots) requires. -/
theorem C4_managed_count_counts_all_slots :
    EcPdoGroupInterfaceChannelManager.number_of_managed_interfaces witnessChannel.2 = 2 ∧
    EcPdoGroupInterfaceChannelManager.number_of_name_bound_slots witnessChannel.2 = 1 := by
  decide

/-- C5 counterexample: the single-interface loader interns without any
presence check: loading a configuration whose `command_interface` key
carries the name "unknown" — already present at index 0 of the global
state-name table — appends a duplicate entry and records the new index 1
rather than returning the existing index 0. -/
theorem C5_single_loader_duplicates_global_name :
    (EcPdoSingleInterfaceChannelManager.load_from_config initialGlobals {}
      { command_interface := some "unknown" }).2.1.all_state_interface_names =
      ["unknown", "unknown"] ∧
    (EcPdoSingleInterfaceChannelManager.load_from_config initialGlobals {}
      { command_interface := some "unknown" }).2.2.state_interface_name_idx_ = 1 := by
  decide

open EcPdoGroupInterfaceChannelManager in
/-- C5 (amended): interning is idempotent per channel: calling
`add_command_interface` a second time with the same name on the same group
channel returns the same slot index, changes neither the channel nor the
global tables, and a single call grows the global command-name table by at
most one entry.  (Globally, interning is not duplicate-free: the
single-interface loader and cross-channel adds append unconditionally.) -/
theorem C5_add_command_interface_idempotent_per_channel
    (g g1 : Globals) (m m1 : EcPdoGroupInterfaceChannelManager)
    (name : String) (i1 : Nat)
    (h : GroupNamesWF g m)
    (hr : add_command_interface g m name = (g1, m1, i1)) :
    add_command_interface g1 m1 name = (g1, m1, i1) ∧
    g1.all_command_interface_names.length ≤ g.all_command_interface_names.length + 1 := by
  obtain ⟨hlen_ids, hlen_cmd, hK, hbound⟩ := h
  by_cases hm : (is_interface_managed g m name).1 = true
  · have key : add_command_interface g m name = (g, m, (is_interface_managed g m name).2) := by
      simp only [add_command_interface, hm, if_true]
    rw [key] at hr
    have hg : g = g1 := congrArg Prod.fst hr
    have hmm : m = m1 := congrArg (fun t => t.2.1) hr
    have hi : (is_interface_managed g m name).2 = i1 := congrArg (fun t => t.2.2) hr
    subst hg
    subst hmm
    subst hi
    exact ⟨key, Nat.le_succ _⟩
  · have hm' : (is_interface_managed g m name).1 = false := by
      simpa using hm
    have hnone : (List.range m.v_data.length).find?
        (fun i => interface_name g m i == some name) = none := by
      rcases hcase : (List.range m.v_data.length).find?
        (fun i => interface_name g m i == some name) with _ | j
      · rfl
      · rw [is_interface_managed, hcase] at hm'
        simp at hm'
    have key : add_command_interface g m name =
        ({ g with all_command_interface_names := g.all_command_interface_names ++ [name] },
         { m with
            v_data := m.v_data ++ [{}],
            interface_ids_ := m.interface_ids_ ++ [none],
            is_command_interface_ := (m.is_command_interface_ ++ [false]).set m.v_data.length true,
            read_functions_ := m.read_functions_ ++ [none],
            write_functions_ := m.write_functions_ ++ [none],
            interface_name_ids_ :=
              m.interface_name_ids_ ++ [g.all_command_interface_names.length],
            managed_ := m.managed_ ++ [m.v_data.length] },
         m.v_data.length) := by
      simp only [add_command_interface, hm', Bool.false_eq_true, if_false]
      rfl
    rw [key] at hr
    have hg : ({ g with all_command_interface_names := g.all_command_interface_names ++ [name] } : Globals) = g1 :=
      congrArg Prod.fst hr
    have hmm : ({ m with
        v_data := m.v_data ++ [{}],
        interface_ids_ := m.interface_ids_ ++ [none],
        is_command_interface_ := (m.is_command_interface_ ++ [false]).set m.v_data.length true,
        read_functions_ := m.read_functions_ ++ [none],
        write_functions_ := m.write_functions_ ++ [none],
        interface_name_ids_ := m.interface_name_ids_ ++ [g.all_command_interface_names.length],
        managed_ := m.managed_ ++ [m.v_data.length] } : EcPdoGroupInterfaceChannelManager) = m1 :=
      congrArg (fun t => t.2.1) hr
    have hi : m.v_data.length = i1 := congrArg (fun t => t.2.2) hr
    have hman : is_interface_managed g1 m1 name = (true, m.v_data.length) := by
      refine add_command_interface_finds_new g1 m1 g m name ?_ ?_ ?_ ?_ ?_
        hlen_ids hlen_cmd hK hbound hnone
      · rw [← hmm]
        simp
      · rw [← hmm]
      · rw [← hmm]
      · rw [← hg]
      · rw [← hg]
    constructor
    · rw [add_command_interface]
      simp only [hman, if_true]
      rw [hi]
    · rw [← hg]
      simp

open EcPdoGroupInterfaceChannelManager in
/-- C5 witness: the idempotence theorem applied to a fresh channel and the
name "x" under the initial global tables. -/
theorem C5_add_command_interface_idempotent_witness :
    add_command_interface
        (add_command_interface initialGlobals emptyGroupManager "x").1
        (add_command_interface initialGlobals emptyGroupManager "x").2.1 "x" =
      ((add_command_interface initialGlobals emptyGroupManager "x").1,
       (add_command_interface initialGlobals emptyGroupManager "x").2.1,
       (add_command_interface initialGlobals emptyGroupManager "x").2.2) ∧
    (add_command_interface initialGlobals emptyGroupManager
        "x").1.all_command_interface_names.length ≤
      initialGlobals.all_command_interface_names.length + 1 :=
  C5_add_command_interface_idempotent_per_channel initialGlobals _ emptyGroupManager _ "x" _
    ⟨rfl, rfl, by decide, fun i hi => by simp [emptyGroupManager] at hi⟩ rfl

/-- C6 helper: the interface-key section of the single loader appends the
`command_interface` name to the state table and the `state_interface`
name to the command table, whatever the other keys hold. -/
theorem single_load_tail_tables (g : Globals) (m : EcPdoSingleInterfaceChannelManager)
    (cfg : SingleChannelConfig) (n1 n2 : String)
    (hc : cfg.command_interface = some n1) (hs : cfg.state_interface = some n2) :
    (EcPdoSingleInterfaceChannelManager.load_tail g m cfg).2.1.all_state_interface_names =
      g.all_state_interface_names ++ [n1] ∧
    (EcPdoSingleInterfaceChannelManager.load_tail g m cfg).2.2.state_interface_name_idx_ =
      g.all_state_interface_names.length ∧
    (EcPdoSingleInterfaceChannelManager.load_tail g m cfg).2.1.all_command_interface_names =
      g.all_command_interface_names ++ [n2] ∧
    (EcPdoSingleInterfaceChannelManager.load_tail g m cfg).2.2.command_interface_name_idx_ =
      g.all_command_interface_names.length := by
  rcases cfg with ⟨oi, osi, ot, oc, os, od, ofa, oof, om, osk⟩
  simp only [SingleChannelConfig.command_interface] at hc
  simp only [SingleChannelConfig.state_interface] at hs
  subst hc
  subst hs
  cases od <;> cases ofa <;> cases oof <;> cases om <;> cases osk <;>
    simp [EcPdoSingleInterfaceChannelManager.load_tail]

/-- C6: in the single-interface loader, a configuration with the
`command_interface` key appends that key's value to the state-interface
name table and records the state name index, and the `state_interface`
key appends its value to the command-interface name table and records the
command name index (the loader's key swap, as the source has it). -/
theorem C6_single_loader_key_swap (g : Globals) (m : EcPdoSingleInterfaceChannelManager)
    (cfg : SingleChannelConfig) (n1 n2 : String)
    (hc : cfg.command_interface = some n1) (hs : cfg.state_interface = some n2)
    (ht : ∀ t, cfg.type_ = some t → typeIdx t ≠ 0) :
    (EcPdoSingleInterfaceChannelManager.load_from_config g m cfg).2.1.all_state_interface_names =
      g.all_state_interface_names ++ [n1] ∧
    (EcPdoSingleInterfaceChannelManager.load_from_config g m cfg).2.2.state_interface_name_idx_ =
      g.all_state_interface_names.length ∧
    (EcPdoSingleInterfaceChannelManager.load_from_config g m cfg).2.1.all_command_interface_names =
      g.all_command_interface_names ++ [n2] ∧
    (EcPdoSingleInterfaceChannelManager.load_from_config g m cfg).2.2.command_interface_name_idx_ =
      g.all_command_interface_names.length := by
  rcases hot : cfg.type_ with _ | t
  · rw [EcPdoSingleInterfaceChannelManager.load_from_config, hot]
    exact single_load_tail_tables g _ cfg n1 n2 hc hs
  · rw [EcPdoSingleInterfaceChannelManager.load_from_config, hot]
    simp only [if_neg (ht t hot)]
    exact single_load_tail_tables g _ cfg n1 n2 hc hs

/-- C6 witness: the key swap observed on a concrete int16 configuration
with `command_interface: eff` and `state_interface: pos`. -/
theorem C6_single_loader_key_swap_witness :
    (EcPdoSingleInterfaceChannelManager.load_from_config initialGlobals {}
      { type_ := some "int16", command_interface := some "eff",
        state_interface := some "pos" }).2.1.all_state_interface_names =
      initialGlobals.all_state_interface_names ++ ["eff"] ∧
    (EcPdoSingleInterfaceChannelManager.load_from_config initialGlobals {}
      { type_ := some "int16", command_interface := some "eff",
        state_interface := some "pos" }).2.2.state_interface_name_idx_ =
      initialGlobals.all_state_interface_names.length ∧
    (EcPdoSingleInterfaceChannelManager.load_from_config initialGlobals {}
      { type_ := some "int16", command_interface := some "eff",
        state_interface := some "pos" }).2.1.all_command_interface_names =
      initialGlobals.all_command_interface_names ++ ["pos"] ∧
    (EcPdoSingleInterfaceChannelManager.load_from_config initialGlobals {}
      { type_ := some "int16", command_interface := some "eff",
        state_interface := some "pos" }).2.2.command_interface_name_idx_ =
      initialGlobals.all_command_interface_names.length :=
  C6_single_loader_key_swap initialGlobals {} _ "eff" "pos" rfl rfl
    (fun t h => by
      injection h with h2
      subst h2
      decide)

open EcPdoGroupInterfaceChannelManager in
/-- C7 counterexample: a second `add_command_interface` call with a name
already managed by the channel grows the per-slot collections by zero
elements, not by exactly one: after adding "x" twice, `v_data` still has
one entry. -/
theorem C7_second_add_grows_by_zero :
    (let t1 := add_command_interface initialGlobals emptyGroupManager "x"
     let t2 := add_command_interface t1.1 t1.2.1 "x"
     t1.2.1.v_data.length = 1 ∧ t2.2.1.v_data.length = 1) := by
  decide

open EcPdoGroupInterfaceChannelManager in
/-- C7 (amended): starting from aligned parallel collections, each of
`add_data_without_interface`, `add_state_interface` and
`add_command_interface` keeps all six per-slot collections at identical
lengths, growing them uniformly: by exactly one when a slot is appended
(`add_data_without_interface` always; the two interface adds when the name
is not yet managed), and by zero — the channel is returned unchanged —
when the name is already managed. -/
theorem C7_parallel_collections_growth
    (g : Globals) (m : EcPdoGroupInterfaceChannelManager) (name : String)
    (h : parallelAligned m) :
    (parallelAligned (add_data_without_interface m).1 ∧
      (add_data_without_interface m).1.v_data.length = m.v_data.length + 1) ∧
    ((is_interface_managed g m name).1 = true →
      (add_state_interface g m name).2.1 = m ∧
      (add_command_interface g m name).2.1 = m) ∧
    ((is_interface_managed g m name).1 = false →
      (parallelAligned (add_state_interface g m name).2.1 ∧
        (add_state_interface g m name).2.1.v_data.length = m.v_data.length + 1) ∧
      (parallelAligned (add_command_interface g m name).2.1 ∧
        (add_command_interface g m name).2.1.v_data.length = m.v_data.length + 1)) := by
  obtain ⟨h1, h2, h3, h4, h5⟩ := h
  refine ⟨⟨?_, ?_⟩, ?_, ?_⟩
  · simp [add_data_without_interface, allocate_for_new_interface, parallelAligned,
      List.length_set, h1, h2, h3, h4, h5]
  · simp [add_data_without_interface, allocate_for_new_interface]
  · intro hcond
    constructor
    · rw [add_state_interface]
      simp only [hcond, if_true]
    · rw [add_command_interface]
      simp only [hcond, if_true]
  · intro hcond
    constructor
    · constructor
      · simp [add_state_interface, allocate_for_new_interface, hcond, parallelAligned,
          List.length_set, h1, h2, h3, h4, h5]
      · simp [add_state_interface, allocate_for_new_interface, hcond]
    · constructor
      · simp [add_command_interface, allocate_for_new_interface, hcond, parallelAligned,
          List.length_set, h1, h2, h3, h4, h5]
      · simp [add_command_interface, allocate_for_new_interface, hcond]

open EcPdoGroupInterfaceChannelManager in
/-- C7 witness: the growth theorem applied to the empty channel and the
name "x". -/
theorem C7_parallel_collections_growth_witness :
    (parallelAligned (add_data_without_interface emptyGroupManager).1 ∧
      (add_data_without_interface emptyGroupManager).1.v_data.length =
        emptyGroupManager.v_data.length + 1) ∧
    ((is_interface_managed initialGlobals emptyGroupManager "x").1 = true →
      (add_state_interface initialGlobals emptyGroupManager "x").2.1 = emptyGroupManager ∧
      (add_command_interface initialGlobals emptyGroupManager "x").2.1 = emptyGroupManager) ∧
    ((is_interface_managed initialGlobals emptyGroupManager "x").1 = false →
      (parallelAligned (add_state_interface initialGlobals emptyGroupManager "x").2.1 ∧
        (add_state_interface initialGlobals emptyGroupManager "x").2.1.v_data.length =
          emptyGroupManager.v_data.length + 1) ∧
      (parallelAligned (add_command_interface initialGlobals emptyGroupManager "x").2.1 ∧
        (add_command_interface initialGlobals emptyGroupManager "x").2.1.v_data.length =
          emptyGroupManager.v_data.length + 1)) :=
  C7_parallel_collections_growth initialGlobals emptyGroupManager "x"
    ⟨rfl, rfl, rfl, rfl, rfl⟩

/-- C8: for both channel-manager shapes, one `ec_update` call is exactly
`ec_read_to_interface` followed by `ec_write_from_interface` — the same
manager, wire buffer and state array result — and the state array it
produces is the one the decode step computed from the wire contents as
they were before this call's encode step. -/
theorem C8_update_is_decode_then_encode :
    (∀ (m : EcPdoSingleInterfaceChannelManager) (dom : Domain) (addr : Nat)
        (s c : List EDouble),
      EcPdoSingleInterfaceChannelManager.ec_update m dom addr s c =
        decode_then_encode_single m dom addr s c ∧
      (EcPdoSingleInterfaceChannelManager.ec_update m dom addr s c).2.2 =
        (EcPdoSingleInterfaceChannelManager.ec_read_to_interface m dom addr s).2) ∧
    ∀ (m : EcPdoGroupInterfaceChannelManager) (dom : Domain) (addr : Nat)
        (s c : List EDouble),
      EcPdoGroupInterfaceChannelManager.ec_update m dom addr s c =
        decode_then_encode_group m dom addr s c ∧
      (EcPdoGroupInterfaceChannelManager.ec_update m dom addr s c).2.2 =
        (EcPdoGroupInterfaceChannelManager.ec_read_to_interface m dom addr s).2 :=
  ⟨fun _ _ _ _ _ => ⟨rfl, rfl⟩, fun _ _ _ _ _ => ⟨rfl, rfl⟩⟩

/-- C9 counterexample: with mask 5, after the raw byte 7 is written to the
wire, decoding does return 5, but encoding 3 through the masked compose
write onto that wire and then reading the raw byte yields 3 (the preserved
masked-out bit 1 plus `3 &&& 5 = 1`), not 1 as the claim's sequence
states. -/
theorem C9_compose_after_raw7 :
    (let d0 := ecWriteU8 (fun _ => 0) 0 7
     octet_read d0 0 5 = EDouble.val 5 ∧
     (octet_compose d0 0 (EDouble.val 3) 5) 0 = 3 ∧ (3 : Nat) ≠ 1) := by
  decide

/-- C9 (amended): with mask 5: hard-writing 7 then decoding yields 5;
composing 3 onto that wire preserves the masked-out bit and leaves raw 3;
after the raw byte is reset to 0 (as the repository's `EcReadWriteBit8Mask5`
test does), composing 3 leaves raw 1, and subsequently composing 7 leaves
raw 5. -/
theorem C9_bit8_mask5_compose_sequence :
    (let d0 := ecWriteU8 (fun _ => 0) 0 7
     octet_read d0 0 5 = EDouble.val 5 ∧
     (octet_compose d0 0 (EDouble.val 3) 5) 0 = 3 ∧
     (let dz := ecWriteU8 d0 0 0
      let d1 := octet_compose dz 0 (EDouble.val 3) 5
      d1 0 = 1 ∧ (octet_compose d1 0 (EDouble.val 7) 5) 0 = 5)) := by
  decide

open EcPdoGroupInterfaceChannelManager in
/-- C10: in a group channel whose slot `i` is unbound (padding) and whose
earlier slots all report a name other than "null", `interface_name`
reports the literal "null" for slot `i`, `is_interface_managed "null"`
returns `(true, i)`, and both `add_state_interface "null"` and
`add_command_interface "null"` return index `i`, changing neither the
channel nor the global name tables. -/
theorem C10_unbound_slot_null_lookup
    (g : Globals) (m : EcPdoGroupInterfaceChannelManager) (i : Nat)
    (hi : i < m.v_data.length)
    (hunbound : m.interface_name_ids_.getD i 0 = 0)
    (hfirst : ∀ j, j < i → interface_name g m j ≠ some "null") :
    interface_name g m i = some "null" ∧
    is_interface_managed g m "null" = (true, i) ∧
    add_state_interface g m "null" = (g, m, i) ∧
    add_command_interface g m "null" = (g, m, i) := by
  have hname : interface_name g m i = some "null" := by
    rw [interface_name, if_pos hi, has_interface_name, hunbound]
    simp
  have hman : is_interface_managed g m "null" = (true, i) := by
    rw [is_interface_managed]
    rw [find?_range_first _ _ i hi (by simp [hname])
      (fun j hj => beq_eq_false_iff_ne.mpr (hfirst j hj))]
  refine ⟨hname, hman, ?_, ?_⟩
  · rw [add_state_interface]
    simp only [hman, if_true]
  · rw [add_command_interface]
    simp only [hman, if_true]

open EcPdoGroupInterfaceChannelManager in
/-- C10 witness: the null-lookup theorem applied to the concrete two-slot
channel whose slot 1 is unbound. -/
theorem C10_unbound_slot_null_lookup_witness :
    interface_name witnessChannel.1 witnessChannel.2 1 = some "null" ∧
    is_interface_managed witnessChannel.1 witnessChannel.2 "null" = (true, 1) ∧
    add_state_interface witnessChannel.1 witnessChannel.2 "null" =
      (witnessChannel.1, witnessChannel.2, 1) ∧
    add_command_interface witnessChannel.1 witnessChannel.2 "null" =
      (witnessChannel.1, witnessChannel.2, 1) :=
  C10_unbound_slot_null_lookup witnessChannel.1 witnessChannel.2 1
    (by decide) (by decide)
    (fun j hj => by
      interval_cases j
      decide)
